import Mathlib

/-!
Verification development for the mini2 gasless-demo repository.

The repository contains two page variants of the same single-page demo:

* `src/app/page.tsx` — the "manual" variant: it hand-rolls the zkSync
  EIP-712 paymaster transaction (hardcoded `PAYMASTER_INPUT`, explicit
  EIP-712 message, explicit serialization request, raw
  `eth_sendRawTransaction` POST).
* `src/unnamed/part_000` — the "library" variant: it delegates paymaster
  input construction and transaction assembly to the viem zkSync helpers
  (`getGeneralPaymasterInput`, `eip712WalletActions`,
  `walletClient.sendTransaction`), and additionally offers a self-funded
  handler `postSelfFunded`.

The effectful TypeScript code is embedded shallowly: every external await
(wallet requests, public-client reads, signing, fetch) is resolved by an
explicit environment record, handlers are total Lean functions from the
environment and the current log to the updated log together with the trace
of externally visible requests, and JavaScript exceptions are `Except`
values threaded explicitly.
-/

namespace Mini2

/-- Hex strings (`0x…`) as the source manipulates them. -/
abbrev Hex := String

/-- Wallet / contract addresses are hex strings in the source. -/
abbrev Address := String

/-- `STAKE_MANAGER_ADDRESS` from `src/app/page.tsx`. -/
def STAKE_MANAGER_ADDRESS : Address := "0xb42550f0038827727142a9e52579f2e616b20894"

/-- `PAYMASTER_ADDRESS`, identical in both variants. -/
def PAYMASTER_ADDRESS : Address := "0x2a3221e4e06bb53906c910146653afb85bf448b2"

/-- `CHAIN_ID` (Lens Testnet), identical in both variants. -/
def CHAIN_ID : Nat := 37111

/-- The hardcoded approval-based paymaster input of the manual variant
(`src/app/page.tsx` line 47). -/
def PAYMASTER_INPUT : Hex := "0x949431dc0000000000000000000000000000000000000000000000000000000000000000000000000000000000000000000000000000000000000000000000000000000000000000000000000000000000000000000000000000000000000000000000600000000000000000000000000000000000000000000000000000000000000000"

/-- Value of a hex digit character, `none` on a non-digit. -/
def hexDigitVal (c : Char) : Option Nat :=
  if '0' ≤ c ∧ c ≤ '9' then some (c.toNat - '0'.toNat)
  else if 'a' ≤ c ∧ c ≤ 'f' then some (c.toNat - 'a'.toNat + 10)
  else if 'A' ≤ c ∧ c ≤ 'F' then some (c.toNat - 'A'.toNat + 10)
  else none

/-- Strip a leading `0x` / `0X` from a hex string. -/
def strip0x (s : String) : List Char :=
  match s.toList with
  | '0' :: 'x' :: rest => rest
  | '0' :: 'X' :: rest => rest
  | l => l

/-- Fold hex digits into a number; `none` as soon as a non-digit occurs. -/
def hexCharsToNat? : List Char → Nat → Option Nat
  | [], acc => some acc
  | c :: rest, acc =>
    match hexDigitVal c with
    | some d => hexCharsToNat? rest (acc * 16 + d)
    | none => none

/-- Numeric value of a well-formed `0x…` hex string, `none` otherwise. -/
def hexToNat? (s : Hex) : Option Nat :=
  match strip0x s with
  | [] => none
  | l => hexCharsToNat? l 0

/-- Model of viem's `hexToBigInt` as used by `addressToBigInt`
(`src/app/page.tsx` lines 85-87): addresses passed to it in this app are
well-formed, so the partial parse is totalised with 0. -/
def hexToBigInt (s : Hex) : Nat := (hexToNat? s).getD 0

/-- `addressToBigInt` from `src/app/page.tsx`. -/
def addressToBigInt (addr : Address) : Nat := hexToBigInt addr

/-- The byte view of a `0x…` hex string: consecutive digit pairs;
`none` when a digit is invalid or the digit count is odd. -/
def hexBytesAux : List Char → Option (List Nat)
  | [] => some []
  | [_] => none
  | hi :: lo :: rest =>
    match hexDigitVal hi, hexDigitVal lo, hexBytesAux rest with
    | some h, some l, some bs => some ((h * 16 + l) :: bs)
    | _, _, _ => none

/-- Bytes of a `0x…` hex string. -/
def hexBytes? (s : Hex) : Option (List Nat) := hexBytesAux (strip0x s)

/-- Big-endian 32-byte (one ABI word) encoding of a number. -/
def beWord32 (n : Nat) : List Nat :=
  (List.range 32).map fun i => n / 256 ^ (31 - i) % 256

/-- Calldata values. The only function data the app ever encodes is a
`stakePost(bytes32,bytes32,bytes32,uint256)` call; viem's
`encodeFunctionData` is modelled at interface level by this structural
representation of the call it encodes. -/
inductive CallData where
  | stakePost (targetId groveHash boardId : Hex) (amount : Nat)
deriving DecidableEq, Inhabited

/-- `encodeFunctionData({abi: StakeManagerABI, functionName: 'stakePost', args})`
modelled at interface level (see `CallData`). -/
def encodeFunctionData_stakePost (targetId groveHash boardId : Hex)
    (amount : Nat) : CallData :=
  CallData.stakePost targetId groveHash boardId amount

/-- `EIP712_TX_TYPE` from `src/app/page.tsx` line 64. -/
def EIP712_TX_TYPE : Nat := 0x71

/-- The zkSync EIP-712 domain returned by `getEip712Domain`. -/
structure Eip712Domain where
  name : String
  version : String
  chainId : Nat
deriving DecidableEq

/-- `getEip712Domain` from `src/app/page.tsx` lines 58-62. -/
def getEip712Domain (chainId : Nat) : Eip712Domain :=
  { name := "zkSync", version := "2", chainId := chainId }

/-- The EIP-712 `message` struct built by `sendGaslessTransaction`
(`src/app/page.tsx` lines 118-132); all `uint256` fields are numbers
(the source converts addresses with `addressToBigInt`). `from` is a Lean
keyword, hence the field name `from_`. -/
structure Eip712Message where
  txType : Nat
  from_ : Nat
  to_ : Nat
  gasLimit : Nat
  gasPerPubdataByteLimit : Nat
  maxFeePerGas : Nat
  maxPriorityFeePerGas : Nat
  paymaster : Nat
  nonce : Nat
  value : Nat
  data : CallData
  factoryDeps : List Hex
  paymasterInput : Hex
deriving DecidableEq, Inhabited

/-- The `ZkSyncTransactionSerializableEIP712` record `txRequest` built by
`sendGaslessTransaction` (`src/app/page.tsx` lines 148-164). -/
structure ZkSyncTxRequest where
  type : String
  chainId : Nat
  from_ : Address
  to_ : Address
  nonce : Nat
  gas : Nat
  gasPerPubdata : Nat
  maxFeePerGas : Nat
  maxPriorityFeePerGas : Nat
  paymaster : Address
  paymasterInput : Hex
  data : CallData
  value : Nat
  factoryDeps : List Hex
  customSignature : Hex
deriving DecidableEq, Inhabited

/-- The request record the library variant passes to
`walletClient.sendTransaction` (`src/unnamed/part_000` lines 117-122 and
152-155); fields the source omits are `none`. -/
structure SendTxParams where
  to_ : Address
  value : Nat
  data : Option CallData
  paymaster : Option Address
  paymasterInput : Option Hex
deriving DecidableEq

/-- A JavaScript error value as the handlers observe it: `message`,
optional numeric `code` (checked by `ensureNetwork`), optional
`shortMessage` (checked by the library variant's gasless handler). -/
structure JsError where
  message : String
  code : Option Int
  shortMessage : Option String
deriving DecidableEq

/-- The `error` member of a parsed JSON-RPC response; `serialized` is its
`JSON.stringify` image, carried as data since the object is opaque. -/
structure RpcError where
  message : Option String
  serialized : String
deriving DecidableEq

/-- A parsed JSON-RPC response (`result` of `response.json()`):
JavaScript truthiness of the `error` member is modelled by `Option`. -/
structure RpcResponse where
  error : Option RpcError
  result : String
deriving DecidableEq

/-- Parameters of a `wallet_addEthereumChain` request
(`src/app/page.tsx` lines 218-224). -/
structure AddChainParams where
  chainId : String
  chainName : String
  rpcUrls : List String
  blockExplorerUrls : List String
  currencyName : String
  currencySymbol : String
  currencyDecimals : Nat
deriving DecidableEq

/-- Externally visible requests a handler can issue, in program order. -/
inductive Event where
  | reqChainId
  | reqSwitchChain (chainIdHex : String)
  | reqAddChain (params : AddChainParams)
  | getNonce (address : Address)
  | getGasPrice
  | signTypedData (domain : Eip712Domain) (msg : Eip712Message)
  | serializeTx (tx : ZkSyncTxRequest)
  | rpcSend (method : String) (tx : ZkSyncTxRequest)
  | libSendTransaction (params : SendTxParams)
deriving DecidableEq

/-- `addLog` (identical in both variants): appends one `"> "`-prefixed
entry at the end of the log. -/
def addLog (msg : String) (logs : List String) : List String :=
  logs ++ ["> " ++ msg]

/-- `clearLogs` (identical in both variants): resets the log to empty. -/
def clearLogs (_logs : List String) : List String := []

/-- Lowercase hex rendering of a number, model of JavaScript
`n.toString(16)`. -/
def natToHex (n : Nat) : String := String.mk (Nat.toDigits 16 n)

/-- Model of JavaScript `parseInt(s, 16)` on the wallet's `eth_chainId`
response: optional `0x` prefix, then the value of the hex digits;
`none` stands for `NaN` (empty or malformed digits; `parseInt`'s
whitespace/sign handling is irrelevant for chain-id strings). -/
def parseIntHex (s : String) : Option Nat :=
  hexToNat? s

/-- Environment resolving `ensureNetwork`'s external awaits. -/
structure NetEnv where
  chainIdHex : String
  switchResult : Except JsError Unit
  addResult : Except JsError Unit

/-- The `wallet_addEthereumChain` parameters of the source. -/
def lensAddChainParams : AddChainParams :=
  { chainId := "0x" ++ natToHex CHAIN_ID
    chainName := "Lens Testnet"
    rpcUrls := ["https://rpc.testnet.lens.dev"]
    blockExplorerUrls := ["https://block-explorer.testnet.lens.dev"]
    currencyName := "GRASS"
    currencySymbol := "GRASS"
    currencyDecimals := 18 }

/-- `ensureNetwork` (identical in `src/app/page.tsx` lines 203-232 and
`src/unnamed/part_000` lines 51-80): read the chain id; when it differs
from `CHAIN_ID`, request a switch, falling back to
`wallet_addEthereumChain` exactly on error code 4902; other errors
propagate. Returns the updated log, the request trace and the outcome. -/
def ensureNetwork (env : NetEnv) (logs : List String) :
    List String × List Event × Except JsError Unit :=
  let networkLine := "Network: Lens Testnet (" ++ toString CHAIN_ID ++ ")"
  if parseIntHex env.chainIdHex = some CHAIN_ID then
    (addLog networkLine logs, [Event.reqChainId], Except.ok ())
  else
    let logs := addLog "Switching to Lens Testnet..." logs
    match env.switchResult with
    | Except.ok _ =>
      (addLog networkLine logs,
       [Event.reqChainId, Event.reqSwitchChain ("0x" ++ natToHex CHAIN_ID)],
       Except.ok ())
    | Except.error e =>
      if e.code = some 4902 then
        match env.addResult with
        | Except.ok _ =>
          (addLog networkLine logs,
           [Event.reqChainId, Event.reqSwitchChain ("0x" ++ natToHex CHAIN_ID),
            Event.reqAddChain lensAddChainParams],
           Except.ok ())
        | Except.error e2 =>
          (logs,
           [Event.reqChainId, Event.reqSwitchChain ("0x" ++ natToHex CHAIN_ID),
            Event.reqAddChain lensAddChainParams],
           Except.error e2)
      else
        (logs,
         [Event.reqChainId, Event.reqSwitchChain ("0x" ++ natToHex CHAIN_ID)],
         Except.error e)

/-- Environment resolving the external awaits of
`sendGaslessTransaction`: the two public-client reads, the wallet
signature, the serialization library (an oracle, since the RLP encoding
lives in viem), and the parsed fetch response. -/
structure GaslessEnv where
  nonceResult : Except JsError Nat
  gasPriceResult : Except JsError Nat
  signatureResult : Except JsError Hex
  serialize : ZkSyncTxRequest → Hex
  rpcResult : Except JsError RpcResponse

/-- The JavaScript `result.error.message || JSON.stringify(result.error)`
of `src/app/page.tsx` line 186: the message when truthy (present and
non-empty), otherwise the serialization. -/
def rpcThrownMessage (e : RpcError) : String :=
  match e.message with
  | some m => if m = "" then e.serialized else m
  | none => e.serialized

/-- `sendGaslessTransaction` (`src/app/page.tsx` lines 90-190): read
nonce and gas price, build the EIP-712 message, request the signature,
serialize, POST once to the RPC endpoint, and fail on an `error` member
of the parsed response. Returns the updated log, the trace of external
requests, and the hash or the thrown error. -/
def sendGaslessTransaction (env : GaslessEnv) (account to_addr : Address)
    (data : CallData) (paymaster : Address) (paymasterInput : Hex)
    (logs : List String) :
    List String × List Event × Except JsError Hex :=
  let logs := addLog "Step 1: Getting nonce and gas price..." logs
  let tr := [Event.getNonce account, Event.getGasPrice]
  match env.nonceResult, env.gasPriceResult with
  | Except.error e, _ => (logs, tr, Except.error e)
  | Except.ok _, Except.error e => (logs, tr, Except.error e)
  | Except.ok nonce, Except.ok gasPrice =>
    let logs := addLog ("Nonce: " ++ toString nonce ++ ", Gas Price: " ++
      toString gasPrice) logs
    let gasLimit : Nat := 500000
    let gasPerPubdataByteLimit : Nat := 800
    let maxFeePerGas := gasPrice
    let maxPriorityFeePerGas := if gasPrice > 100000000 then 100000000 else gasPrice
    let logs := addLog "Step 2: Building EIP-712 message..." logs
    let message : Eip712Message :=
      { txType := EIP712_TX_TYPE
        from_ := addressToBigInt account
        to_ := addressToBigInt to_addr
        gasLimit := gasLimit
        gasPerPubdataByteLimit := gasPerPubdataByteLimit
        maxFeePerGas := maxFeePerGas
        maxPriorityFeePerGas := maxPriorityFeePerGas
        paymaster := addressToBigInt paymaster
        nonce := nonce
        value := 0
        data := data
        factoryDeps := []
        paymasterInput := paymasterInput }
    let logs := addLog "Step 3: Requesting EIP-712 signature..." logs
    let tr := tr ++ [Event.signTypedData (getEip712Domain CHAIN_ID) message]
    match env.signatureResult with
    | Except.error e => (logs, tr, Except.error e)
    | Except.ok signature =>
      let logs := addLog ("Signature: " ++ signature.take 20 ++ "...") logs
      let logs := addLog "Step 4: Serializing transaction..." logs
      let txRequest : ZkSyncTxRequest :=
        { type := "eip712"
          chainId := CHAIN_ID
          from_ := account
          to_ := to_addr
          nonce := nonce
          gas := gasLimit
          gasPerPubdata := gasPerPubdataByteLimit
          maxFeePerGas := maxFeePerGas
          maxPriorityFeePerGas := maxPriorityFeePerGas
          paymaster := paymaster
          paymasterInput := paymasterInput
          data := data
          value := 0
          factoryDeps := []
          customSignature := signature }
      let serializedTx := env.serialize txRequest
      let tr := tr ++ [Event.serializeTx txRequest]
      let logs := addLog ("Serialized: " ++ toString serializedTx.length ++
        " chars") logs
      let logs := addLog "Step 5: Sending transaction..." logs
      let tr := tr ++ [Event.rpcSend "eth_sendRawTransaction" txRequest]
      match env.rpcResult with
      | Except.error e => (logs, tr, Except.error e)
      | Except.ok result =>
        match result.error with
        | some rerr =>
          let logs := addLog ("RPC Error: " ++ rerr.serialized) logs
          (logs, tr,
           Except.error
             { message := rpcThrownMessage rerr, code := none, shortMessage := none })
        | none => (logs, tr, Except.ok result.result)

/-- Environment of the manual variant's `postGasless` handler: the
network sub-environment, the three `randomBytes32` draws, and the
gasless sub-environment. -/
structure PageEnv where
  net : NetEnv
  targetId : Hex
  groveHash : Hex
  boardId : Hex
  gasless : GaslessEnv

namespace Manual

/-- `postGasless` of the manual variant (`src/app/page.tsx` lines
245-296): early-return without a connected address, clear the log,
ensure the network, build the `stakePost` calldata, run
`sendGaslessTransaction` against the stake manager with the hardcoded
`PAYMASTER_INPUT`, and log success or the caught error. -/
def postGasless (address : Option Address) (env : PageEnv)
    (logs : List String) : List String × List Event :=
  match address with
  | none => (logs, [])
  | some addr =>
    let logs := clearLogs logs
    let (logs, trNet, netRes) := ensureNetwork env.net logs
    match netRes with
    | Except.error e => (addLog ("ERROR: " ++ e.message) logs, trNet)
    | Except.ok _ =>
      let logs := addLog "=== Starting Gasless Transaction ===" logs
      let logs := addLog ("Target: " ++ env.targetId.take 18 ++ "...") logs
      let callData :=
        encodeFunctionData_stakePost env.targetId env.groveHash env.boardId 0
      let (logs, trSend, res) :=
        sendGaslessTransaction env.gasless addr STAKE_MANAGER_ADDRESS callData
          PAYMASTER_ADDRESS PAYMASTER_INPUT logs
      match res with
      | Except.error e => (addLog ("ERROR: " ++ e.message) logs, trNet ++ trSend)
      | Except.ok txHash =>
        let logs := addLog "=== SUCCESS ===" logs
        let logs := addLog ("TX: " ++ txHash) logs
        let logs :=
          addLog ("https://block-explorer.testnet.lens.dev/tx/" ++ txHash) logs
        (logs, trNet ++ trSend)

end Manual

/-- One ABI word as 64 lowercase hex digits. -/
def hexWord64 (n : Nat) : String :=
  let d := Nat.toDigits 16 n
  String.mk (List.replicate (64 - d.length) '0' ++ d)

/-- Interface-level model of viem's `getGeneralPaymasterInput`
(`src/unnamed/part_000` line 111): the general-flow selector followed by
the ABI encoding of the single `bytes` argument (offset word, length
word, right-padded data). -/
def getGeneralPaymasterInput (innerInput : Hex) : Hex :=
  let inner := strip0x innerInput
  let byteLen := inner.length / 2
  let pad := (64 - inner.length % 64) % 64
  "0x8c5a3445" ++ hexWord64 0x20 ++ hexWord64 byteLen ++
    (if byteLen = 0 then "" else String.mk (inner ++ List.replicate pad '0'))

/-- Environment of a library-variant handler: the network
sub-environment and the outcome of `walletClient.sendTransaction`. -/
structure LibEnv where
  net : NetEnv
  sendResult : Except JsError Hex

namespace Lib

/-- The catch block of the library variant's `postGasless`
(`src/unnamed/part_000` lines 128-132): log the error message, then the
`shortMessage` when the error carries one. -/
def logCaughtError (e : JsError) (logs : List String) : List String :=
  let logs := addLog ("ERROR: " ++ e.message) logs
  match e.shortMessage with
  | some s => addLog ("Short: " ++ s) logs
  | none => logs

/-- `postGasless` of the library variant (`src/unnamed/part_000` lines
93-133): early-return without a connected address, clear the log, ensure
the network, build the general paymaster input with the library utility,
send a zero-value transaction to the connected address itself through
`walletClient.sendTransaction`, and log success or the caught error. -/
def postGasless (address : Option Address) (env : LibEnv)
    (logs : List String) : List String × List Event :=
  match address with
  | none => (logs, [])
  | some addr =>
    let logs := clearLogs logs
    let (logs, trNet, netRes) := ensureNetwork env.net logs
    match netRes with
    | Except.error e => (logCaughtError e logs, trNet)
    | Except.ok _ =>
      let logs := addLog "=== Testing Gasless Transaction ===" logs
      let logs := addLog "Wallet client created with eip712WalletActions" logs
      let paymasterInput := getGeneralPaymasterInput "0x"
      let logs := addLog ("Paymaster input: " ++ paymasterInput.take 20 ++ "...") logs
      let logs := addLog "Sending transaction via walletClient.sendTransaction..." logs
      let params : SendTxParams :=
        { to_ := addr, value := 0, data := none,
          paymaster := some PAYMASTER_ADDRESS,
          paymasterInput := some paymasterInput }
      let tr := trNet ++ [Event.libSendTransaction params]
      match env.sendResult with
      | Except.error e => (logCaughtError e logs, tr)
      | Except.ok hash =>
        let logs := addLog "=== SUCCESS ===" logs
        let logs := addLog ("TX: " ++ hash) logs
        let logs :=
          addLog ("https://block-explorer.testnet.lens.dev/tx/" ++ hash) logs
        (logs, tr)

/-- `postSelfFunded` of the library variant (`src/unnamed/part_000`
lines 136-165): like `postGasless` but without any paymaster field, and
with an error-message-only catch block. -/
def postSelfFunded (address : Option Address) (env : LibEnv)
    (logs : List String) : List String × List Event :=
  match address with
  | none => (logs, [])
  | some addr =>
    let logs := clearLogs logs
    let (logs, trNet, netRes) := ensureNetwork env.net logs
    match netRes with
    | Except.error e => (addLog ("ERROR: " ++ e.message) logs, trNet)
    | Except.ok _ =>
      let logs := addLog "=== Testing Self-Funded Transaction ===" logs
      let logs := addLog "Sending regular transaction (no paymaster)..." logs
      let params : SendTxParams :=
        { to_ := addr, value := 0, data := none,
          paymaster := none, paymasterInput := none }
      let tr := trNet ++ [Event.libSendTransaction params]
      match env.sendResult with
      | Except.error e => (addLog ("ERROR: " ++ e.message) logs, tr)
      | Except.ok hash =>
        let logs := addLog "=== SUCCESS ===" logs
        let logs := addLog ("TX: " ++ hash) logs
        let logs :=
          addLog ("https://block-explorer.testnet.lens.dev/tx/" ++ hash) logs
        (logs, tr)

end Lib

/-! ### Helper lemmas -/

/-- The character data of an appended string. -/
theorem string_data_append : ∀ s t : String, (s ++ t).data = s.data ++ t.data
  | ⟨_⟩, ⟨_⟩ => rfl

/-- A string whose data does not start with `t.data` is not `t ++ m`. -/
theorem string_append_ne (s t : String) (h : ¬ t.data <+: s.data) :
    ∀ m : String, s ≠ t ++ m := by
  intro m hm
  exact h ⟨m.data, by rw [hm, string_data_append]⟩

/-- Every request `ensureNetwork` issues is one of the three wallet
requests of its body. -/
theorem ensureNetwork_events (env : NetEnv) (logs : List String) (e : Event)
    (h : e ∈ (ensureNetwork env logs).2.1) :
    e = Event.reqChainId ∨ (∃ s, e = Event.reqSwitchChain s) ∨
      ∃ p, e = Event.reqAddChain p := by
  obtain ⟨cid, sw, ad⟩ := env
  unfold ensureNetwork at h
  by_cases hc : parseIntHex cid = some CHAIN_ID
  · simp [hc] at h
    simp [h]
  · simp [hc] at h
    cases sw with
    | ok u =>
      simp at h
      rcases h with h | h <;> simp [h]
    | error e' =>
      by_cases h4 : e'.code = some 4902
      · simp [h4] at h
        cases ad <;> simp at h <;> rcases h with h | h | h <;> simp [h]
      · simp [h4] at h
        rcases h with h | h <;> simp [h]

/-- Characterization of the transaction record carried by an
`eth_sendRawTransaction` request in `sendGaslessTransaction`'s trace:
the request occurs only when the two reads and the signature succeeded,
its method is `eth_sendRawTransaction`, and the record is exactly the
`txRequest` the source builds. -/
theorem sendGasless_rpcSend_char (env : GaslessEnv) (account t_addr : Address)
    (d : CallData) (pm : Address) (pmInput : Hex) (logs : List String)
    (m : String) (tx : ZkSyncTxRequest)
    (h : Event.rpcSend m tx ∈
      (sendGaslessTransaction env account t_addr d pm pmInput logs).2.1) :
    m = "eth_sendRawTransaction" ∧
    ∃ nonce gasPrice sig,
      env.nonceResult = Except.ok nonce ∧
      env.gasPriceResult = Except.ok gasPrice ∧
      env.signatureResult = Except.ok sig ∧
      tx = { type := "eip712", chainId := CHAIN_ID, from_ := account,
             to_ := t_addr, nonce := nonce, gas := 500000, gasPerPubdata := 800,
             maxFeePerGas := gasPrice,
             maxPriorityFeePerGas :=
               if gasPrice > 100000000 then 100000000 else gasPrice,
             paymaster := pm, paymasterInput := pmInput, data := d, value := 0,
             factoryDeps := [], customSignature := sig } := by
  obtain ⟨n, g, s, ser, r⟩ := env
  cases n with
  | error e => simp [sendGaslessTransaction] at h
  | ok nonce =>
    cases g with
    | error e => simp [sendGaslessTransaction] at h
    | ok gasPrice =>
      cases s with
      | error e => simp [sendGaslessTransaction] at h
      | ok sig =>
        cases r with
        | error e =>
          simp [sendGaslessTransaction] at h
          exact ⟨h.1, nonce, gasPrice, sig, rfl, rfl, rfl, h.2⟩
        | ok resp =>
          obtain ⟨rerr, rres⟩ := resp
          cases rerr with
          | none =>
            simp [sendGaslessTransaction] at h
            exact ⟨h.1, nonce, gasPrice, sig, rfl, rfl, rfl, h.2⟩
          | some re =>
            simp [sendGaslessTransaction] at h
            exact ⟨h.1, nonce, gasPrice, sig, rfl, rfl, rfl, h.2⟩

/-- Characterization of the message carried by a `signTypedData` request
in `sendGaslessTransaction`'s trace: the domain is the zkSync domain and
the message is exactly the one the source builds. -/
theorem sendGasless_sign_char (env : GaslessEnv) (account t_addr : Address)
    (d : CallData) (pm : Address) (pmInput : Hex) (logs : List String)
    (dom : Eip712Domain) (msg : Eip712Message)
    (h : Event.signTypedData dom msg ∈
      (sendGaslessTransaction env account t_addr d pm pmInput logs).2.1) :
    dom = getEip712Domain CHAIN_ID ∧
    ∃ nonce gasPrice,
      env.nonceResult = Except.ok nonce ∧
      env.gasPriceResult = Except.ok gasPrice ∧
      msg = { txType := EIP712_TX_TYPE, from_ := addressToBigInt account,
              to_ := addressToBigInt t_addr, gasLimit := 500000,
              gasPerPubdataByteLimit := 800, maxFeePerGas := gasPrice,
              maxPriorityFeePerGas :=
                if gasPrice > 100000000 then 100000000 else gasPrice,
              paymaster := addressToBigInt pm, nonce := nonce, value := 0,
              data := d, factoryDeps := [], paymasterInput := pmInput } := by
  obtain ⟨n, g, s, ser, r⟩ := env
  cases n with
  | error e => simp [sendGaslessTransaction] at h
  | ok nonce =>
    cases g with
    | error e => simp [sendGaslessTransaction] at h
    | ok gasPrice =>
      cases s with
      | error e =>
        simp [sendGaslessTransaction] at h
        exact ⟨h.1, nonce, gasPrice, rfl, rfl, h.2⟩
      | ok sig =>
        cases r with
        | error e =>
          simp [sendGaslessTransaction] at h
          exact ⟨h.1, nonce, gasPrice, rfl, rfl, h.2⟩
        | ok resp =>
          obtain ⟨rerr, rres⟩ := resp
          cases rerr with
          | none =>
            simp [sendGaslessTransaction] at h
            exact ⟨h.1, nonce, gasPrice, rfl, rfl, h.2⟩
          | some re =>
            simp [sendGaslessTransaction] at h
            exact ⟨h.1, nonce, gasPrice, rfl, rfl, h.2⟩

/-- Whether an event is an `eth_sendRawTransaction` POST. -/
def Event.isRpcSend : Event → Bool
  | Event.rpcSend _ _ => true
  | _ => false

/-- Number of raw-transaction POSTs in a trace. -/
def countRpcSends (tr : List Event) : Nat := (tr.filter Event.isRpcSend).length

/-- The recipient of a submission event (either variant), `none` for
non-submission events. -/
def submittedTo : Event → Option Address
  | Event.rpcSend _ tx => some tx.to_
  | Event.libSendTransaction p => some p.to_
  | _ => none

/-- Recipients of all submissions in a trace, in order. -/
def submissions (tr : List Event) : List Address := tr.filterMap submittedTo

/-- A log ending with a caught-error line, exactly as the handlers
produce it (`addLog` of `ERROR: ` + the error message). -/
def endsWithErrorLine (l : List String) : Prop :=
  ∃ pre m, l = addLog ("ERROR: " ++ m) pre

/-- A log ending with a caught-error line followed by a short-message
line, as the library gasless handler produces for errors carrying a
`shortMessage`. -/
def endsWithErrorShort (l : List String) : Prop :=
  ∃ pre m s, l = addLog ("Short: " ++ s) (addLog ("ERROR: " ++ m) pre)

/-- A log ending with the three success lines every handler appends:
the success marker, the transaction hash, and the explorer link. -/
def endsWithSuccess (l : List String) : Prop :=
  ∃ pre h,
    l = addLog ("https://block-explorer.testnet.lens.dev/tx/" ++ h)
          (addLog ("TX: " ++ h) (addLog "=== SUCCESS ===" pre))

/-- Any `eth_sendRawTransaction` request issued by the manual variant's
`postGasless` carries the transaction the handler builds: recipient
`STAKE_MANAGER_ADDRESS`, the `stakePost` calldata over the three random
ids, value 0, chain 37111, the paymaster address and the hardcoded
`PAYMASTER_INPUT`. -/
theorem manual_postGasless_rpcSend_char (addr : Address) (env : PageEnv)
    (logs : List String) (m : String) (tx : ZkSyncTxRequest)
    (h : Event.rpcSend m tx ∈ (Manual.postGasless (some addr) env logs).2) :
    m = "eth_sendRawTransaction" ∧
    tx.type = "eip712" ∧
    tx.chainId = CHAIN_ID ∧
    tx.from_ = addr ∧
    tx.to_ = STAKE_MANAGER_ADDRESS ∧
    tx.gas = 500000 ∧
    tx.gasPerPubdata = 800 ∧
    tx.paymaster = PAYMASTER_ADDRESS ∧
    tx.paymasterInput = PAYMASTER_INPUT ∧
    tx.data = CallData.stakePost env.targetId env.groveHash env.boardId 0 ∧
    tx.value = 0 ∧
    tx.factoryDeps = [] := by
  rw [show Manual.postGasless (some addr) env logs =
    (let (logs1, trNet, netRes) := ensureNetwork env.net (clearLogs logs)
     match netRes with
     | Except.error e => (addLog ("ERROR: " ++ e.message) logs1, trNet)
     | Except.ok _ =>
       let logs1 := addLog "=== Starting Gasless Transaction ===" logs1
       let logs1 := addLog ("Target: " ++ env.targetId.take 18 ++ "...") logs1
       let callData :=
         encodeFunctionData_stakePost env.targetId env.groveHash env.boardId 0
       let (logs2, trSend, res) :=
         sendGaslessTransaction env.gasless addr STAKE_MANAGER_ADDRESS callData
           PAYMASTER_ADDRESS PAYMASTER_INPUT logs1
       match res with
       | Except.error e => (addLog ("ERROR: " ++ e.message) logs2, trNet ++ trSend)
       | Except.ok txHash =>
         let logs2 := addLog "=== SUCCESS ===" logs2
         let logs2 := addLog ("TX: " ++ txHash) logs2
         let logs2 :=
           addLog ("https://block-explorer.testnet.lens.dev/tx/" ++ txHash) logs2
         (logs2, trNet ++ trSend)) from rfl] at h
  rcases hN : ensureNetwork env.net (clearLogs logs) with ⟨logs1, trNet, netRes⟩
  rw [hN] at h
  have hNetTr : trNet = (ensureNetwork env.net (clearLogs logs)).2.1 := by rw [hN]
  cases netRes with
  | error e =>
    simp at h
    have := ensureNetwork_events env.net (clearLogs logs) _ (hNetTr ▸ h)
    simp at this
  | ok u =>
    simp only at h
    rcases hS : sendGaslessTransaction env.gasless addr STAKE_MANAGER_ADDRESS
        (encodeFunctionData_stakePost env.targetId env.groveHash env.boardId 0)
        PAYMASTER_ADDRESS PAYMASTER_INPUT
        (addLog ("Target: " ++ env.targetId.take 18 ++ "...")
          (addLog "=== Starting Gasless Transaction ===" logs1))
      with ⟨logs2, trSend, res⟩
    rw [hS] at h
    have hSendTr : Event.rpcSend m tx ∈ trSend → Event.rpcSend m tx ∈
        (sendGaslessTransaction env.gasless addr STAKE_MANAGER_ADDRESS
          (encodeFunctionData_stakePost env.targetId env.groveHash env.boardId 0)
          PAYMASTER_ADDRESS PAYMASTER_INPUT
          (addLog ("Target: " ++ env.targetId.take 18 ++ "...")
            (addLog "=== Starting Gasless Transaction ===" logs1))).2.1 := by
      rw [hS]; exact id
    have hmem : Event.rpcSend m tx ∈ trNet ++ trSend := by
      cases res with
      | error e => simpa using h
      | ok txHash => simpa using h
    rcases List.mem_append.mp hmem with hL | hR
    · have := ensureNetwork_events env.net (clearLogs logs) _ (hNetTr ▸ hL)
      simp at this
    · obtain ⟨hm, nonce, gasPrice, sig, _, _, _, htx⟩ :=
        sendGasless_rpcSend_char _ _ _ _ _ _ _ _ _ (hSendTr hR)
      subst htx
      exact ⟨hm, rfl, rfl, rfl, rfl, rfl, rfl, rfl, rfl, rfl, rfl, rfl⟩

/-- The EIP-712 message `sendGaslessTransaction` builds once nonce and
gas price are known (definitionally the record of its `message`). -/
def builtMessage (account t_addr : Address) (d : CallData) (pm : Address)
    (pmInput : Hex) (nonce gasPrice : Nat) : Eip712Message :=
  { txType := EIP712_TX_TYPE, from_ := addressToBigInt account,
    to_ := addressToBigInt t_addr, gasLimit := 500000,
    gasPerPubdataByteLimit := 800, maxFeePerGas := gasPrice,
    maxPriorityFeePerGas := if gasPrice > 100000000 then 100000000 else gasPrice,
    paymaster := addressToBigInt pm, nonce := nonce, value := 0,
    data := d, factoryDeps := [], paymasterInput := pmInput }

/-- The serializable request `sendGaslessTransaction` builds once the
signature is available (definitionally the record of its `txRequest`). -/
def builtTxRequest (account t_addr : Address) (d : CallData) (pm : Address)
    (pmInput : Hex) (nonce gasPrice : Nat) (sig : Hex) : ZkSyncTxRequest :=
  { type := "eip712", chainId := CHAIN_ID, from_ := account, to_ := t_addr,
    nonce := nonce, gas := 500000, gasPerPubdata := 800,
    maxFeePerGas := gasPrice,
    maxPriorityFeePerGas := if gasPrice > 100000000 then 100000000 else gasPrice,
    paymaster := pm, paymasterInput := pmInput, data := d, value := 0,
    factoryDeps := [], customSignature := sig }

/-! ### Concrete environments for witnesses and counterexamples -/

/-- A wallet already on chain 37111 (`0x90f7`). -/
def demoNetOk : NetEnv :=
  { chainIdHex := "0x90f7", switchResult := Except.ok (),
    addResult := Except.ok () }

/-- A fully successful gasless environment. -/
def demoGasless : GaslessEnv :=
  { nonceResult := Except.ok 7, gasPriceResult := Except.ok 5,
    signatureResult := Except.ok "0xsigdemo", serialize := fun _ => "0xser",
    rpcResult := Except.ok { error := none, result := "0xhash" } }

/-- A fully successful manual-variant environment. -/
def demoPage : PageEnv :=
  { net := demoNetOk, targetId := "0xt", groveHash := "0xg", boardId := "0xb",
    gasless := demoGasless }

/-- The address used in concrete runs. -/
def demoAddr : Address := "0x00000000000000000000000000000000000000aa"

/-- A gasless environment where the wallet rejects the signature. -/
def sigRejectEnv : GaslessEnv :=
  { nonceResult := Except.ok 0, gasPriceResult := Except.ok 1,
    signatureResult :=
      Except.error
        { message := "User rejected the request", code := none,
          shortMessage := none },
    serialize := fun _ => "0x",
    rpcResult := Except.ok { error := none, result := "" } }

/-- The transaction `demoPage` leads the manual variant to submit. -/
def demoTx : ZkSyncTxRequest :=
  builtTxRequest demoAddr STAKE_MANAGER_ADDRESS
    (CallData.stakePost "0xt" "0xg" "0xb" 0) PAYMASTER_ADDRESS PAYMASTER_INPUT
    7 5 "0xsigdemo"

/-! ### Claim theorems -/

/-- C1: in the manual variant the paymaster input is the fixed constant
`PAYMASTER_INPUT`, whose bytes are the approval-based selector
`0x949431dc` followed by the ABI encoding of a zero token address, a
zero `minAllowance`, and empty inner input bytes (offset word `0x60`,
zero length word); and every gasless submission of that variant carries
exactly this constant as its `paymasterInput` field. -/
theorem C1_paymaster_input_fixed :
    hexBytes? PAYMASTER_INPUT =
      some ([0x94, 0x94, 0x31, 0xdc] ++ beWord32 0 ++ beWord32 0 ++
        beWord32 0x60 ++ beWord32 0) ∧
    ∀ (addr : Address) (env : PageEnv) (logs : List String) (m : String)
      (tx : ZkSyncTxRequest),
      Event.rpcSend m tx ∈ (Manual.postGasless (some addr) env logs).2 →
      tx.paymasterInput = PAYMASTER_INPUT := by
  refine ⟨by decide, ?_⟩
  intro addr env logs m tx h
  exact (manual_postGasless_rpcSend_char addr env logs m tx h).2.2.2.2.2.2.2.2.1

set_option maxRecDepth 8192 in
/-- Witness for C1 at a concrete run of the manual variant. -/
theorem C1_witness : demoTx.paymasterInput = PAYMASTER_INPUT :=
  C1_paymaster_input_fixed.2 demoAddr demoPage [] "eth_sendRawTransaction"
    demoTx (by decide)

/-- C4: `sendGaslessTransaction` performs its steps in a fixed order —
nonce and gas-price reads, then the EIP-712 message (carried by the
signature request), then the signature request, then serialization, and
only then the single POST; its request trace is always a prefix of that
canonical sequence, so the signature request precedes any submission. -/
theorem C4_fixed_step_order (env : GaslessEnv) (account t_addr : Address)
    (d : CallData) (pm : Address) (pmInput : Hex) (logs : List String) :
    ∃ msg tx,
      (sendGaslessTransaction env account t_addr d pm pmInput logs).2.1 <+:
        [Event.getNonce account, Event.getGasPrice,
         Event.signTypedData (getEip712Domain CHAIN_ID) msg,
         Event.serializeTx tx,
         Event.rpcSend "eth_sendRawTransaction" tx] := by
  obtain ⟨n, g, s, ser, r⟩ := env
  cases n with
  | error e =>
    exact ⟨default, default,
      [Event.signTypedData (getEip712Domain CHAIN_ID) default,
       Event.serializeTx default,
       Event.rpcSend "eth_sendRawTransaction" default], rfl⟩
  | ok nonce =>
    cases g with
    | error e =>
      exact ⟨default, default,
        [Event.signTypedData (getEip712Domain CHAIN_ID) default,
         Event.serializeTx default,
         Event.rpcSend "eth_sendRawTransaction" default], rfl⟩
    | ok gasPrice =>
      cases s with
      | error e =>
        exact ⟨builtMessage account t_addr d pm pmInput nonce gasPrice, default,
          [Event.serializeTx default,
           Event.rpcSend "eth_sendRawTransaction" default], rfl⟩
      | ok sig =>
        cases r with
        | error e =>
          exact ⟨builtMessage account t_addr d pm pmInput nonce gasPrice,
            builtTxRequest account t_addr d pm pmInput nonce gasPrice sig,
            [], rfl⟩
        | ok resp =>
          obtain ⟨rerr, rres⟩ := resp
          cases rerr with
          | none =>
            exact ⟨builtMessage account t_addr d pm pmInput nonce gasPrice,
              builtTxRequest account t_addr d pm pmInput nonce gasPrice sig,
              [], rfl⟩
          | some re =>
            exact ⟨builtMessage account t_addr d pm pmInput nonce gasPrice,
              builtTxRequest account t_addr d pm pmInput nonce gasPrice sig,
              [], rfl⟩

/-- C6 counterexample: `clearLogs` is an operation on the log state that
neither leaves a non-empty log unchanged nor appends entries to it — it
removes every existing entry. -/
theorem C6_counterexample :
    clearLogs ["> hello"] = [] ∧
    ¬ (clearLogs ["> hello"] = ["> hello"] ∨
       ∃ new, clearLogs ["> hello"] = ["> hello"] ++ new) := by
  refine ⟨rfl, ?_⟩
  rintro (h | ⟨new, h⟩) <;> simp [clearLogs] at h

/-- C6 amended: `addLog` only appends one entry at the end; every other
log operation is `clearLogs` — invoked directly or at the start of each
post handler — which resets the log to empty; consequently a handler's
resulting log never depends on pre-existing entries, and no operation
modifies an entry in place. -/
theorem C6_amended_append_or_reset :
    (∀ msg logs, addLog msg logs = logs ++ ["> " ++ msg]) ∧
    (∀ logs, clearLogs logs = []) ∧
    (∀ a (envP : PageEnv) logs,
      (Manual.postGasless (some a) envP logs).1 =
        (Manual.postGasless (some a) envP []).1) ∧
    (∀ a (envL : LibEnv) logs,
      (Lib.postGasless (some a) envL logs).1 =
        (Lib.postGasless (some a) envL []).1) ∧
    (∀ a (envL : LibEnv) logs,
      (Lib.postSelfFunded (some a) envL logs).1 =
        (Lib.postSelfFunded (some a) envL []).1) :=
  ⟨fun _ _ => rfl, fun _ => rfl, fun _ _ _ => rfl, fun _ _ _ => rfl,
   fun _ _ _ => rfl⟩

/-- The fee clamp of the source is the binary minimum. -/
theorem fee_ite_min (gp : Nat) :
    (if gp > 100000000 then 100000000 else gp) = min gp 100000000 := by
  rcases le_or_lt gp 100000000 with hle | hlt
  · rw [if_neg (by omega), Nat.min_eq_left hle]
  · rw [if_pos hlt, Nat.min_eq_right (by omega)]

/-- C9: whatever gas price the public client returns, the submitted
transaction has `maxPriorityFeePerGas = min gasPrice 100000000` and
`maxFeePerGas = gasPrice`, so the priority fee never exceeds the max fee
nor `10^8`. -/
theorem C9_priority_fee_cap (env : GaslessEnv) (account t_addr : Address)
    (d : CallData) (pm : Address) (pmInput : Hex) (logs : List String)
    (gp : Nat) (m : String) (tx : ZkSyncTxRequest)
    (hgp : env.gasPriceResult = Except.ok gp)
    (h : Event.rpcSend m tx ∈
      (sendGaslessTransaction env account t_addr d pm pmInput logs).2.1) :
    tx.maxPriorityFeePerGas = min gp 100000000 ∧
    tx.maxFeePerGas = gp ∧
    tx.maxPriorityFeePerGas ≤ tx.maxFeePerGas ∧
    tx.maxPriorityFeePerGas ≤ 100000000 := by
  obtain ⟨-, nonce, gasPrice, sig, hn, hg, hs, htx⟩ :=
    sendGasless_rpcSend_char env account t_addr d pm pmInput logs m tx h
  rw [hgp] at hg
  injection hg with hg
  subst hg
  subst htx
  exact ⟨fee_ite_min gp, rfl,
    le_trans (le_of_eq (fee_ite_min gp)) (Nat.min_le_left _ _),
    le_trans (le_of_eq (fee_ite_min gp)) (Nat.min_le_right _ _)⟩

set_option maxRecDepth 8192 in
/-- Witness for C9 at the concrete successful environment. -/
theorem C9_witness :
    demoTx.maxPriorityFeePerGas = min 5 100000000 ∧
    demoTx.maxFeePerGas = 5 ∧
    demoTx.maxPriorityFeePerGas ≤ demoTx.maxFeePerGas ∧
    demoTx.maxPriorityFeePerGas ≤ 100000000 :=
  C9_priority_fee_cap demoGasless demoAddr STAKE_MANAGER_ADDRESS
    (CallData.stakePost "0xt" "0xg" "0xb" 0) PAYMASTER_ADDRESS PAYMASTER_INPUT
    (addLog ("Target: " ++ "0xt".take 18 ++ "...")
      (addLog "=== Starting Gasless Transaction ===" []))
    5 "eth_sendRawTransaction" demoTx rfl (by decide)

/-- C5: `ensureNetwork` reads the chain id; on chain 37111 it makes no
switch or add request; otherwise it requests a switch to `0x90f7`,
falling back to `wallet_addEthereumChain` with the Lens Testnet
parameters exactly when the switch fails with code 4902, and propagating
any other switch error to the caller. -/
theorem C5_ensure_network (env : NetEnv) (logs : List String) :
    (parseIntHex env.chainIdHex = some CHAIN_ID →
      (ensureNetwork env logs).2.1 = [Event.reqChainId] ∧
      (ensureNetwork env logs).2.2 = Except.ok ()) ∧
    (parseIntHex env.chainIdHex ≠ some CHAIN_ID →
      (env.switchResult = Except.ok () →
        (ensureNetwork env logs).2.1 =
          [Event.reqChainId, Event.reqSwitchChain "0x90f7"] ∧
        (ensureNetwork env logs).2.2 = Except.ok ()) ∧
      (∀ e, env.switchResult = Except.error e → e.code = some 4902 →
        (ensureNetwork env logs).2.1 =
          [Event.reqChainId, Event.reqSwitchChain "0x90f7",
           Event.reqAddChain lensAddChainParams] ∧
        (env.addResult = Except.ok () →
          (ensureNetwork env logs).2.2 = Except.ok ()) ∧
        (∀ e2, env.addResult = Except.error e2 →
          (ensureNetwork env logs).2.2 = Except.error e2)) ∧
      (∀ e, env.switchResult = Except.error e → e.code ≠ some 4902 →
        (ensureNetwork env logs).2.1 =
          [Event.reqChainId, Event.reqSwitchChain "0x90f7"] ∧
        (ensureNetwork env logs).2.2 = Except.error e)) := by
  obtain ⟨cid, sw, ad⟩ := env
  have h90 : "0x" ++ natToHex CHAIN_ID = "0x90f7" := by decide
  constructor
  · intro hc
    constructor <;> simp [ensureNetwork, hc]
  · intro hc
    refine ⟨?_, ?_, ?_⟩
    · intro hsw
      have hsw' : sw = Except.ok () := hsw
      subst hsw'
      constructor <;> simp [ensureNetwork, hc, h90]
    · intro e hsw h4
      have hsw' : sw = Except.error e := hsw
      subst hsw'
      refine ⟨by simp [ensureNetwork, hc, h4, h90]; cases ad <;> simp, ?_, ?_⟩
      · intro had
        have had' : ad = Except.ok () := had
        subst had'
        simp [ensureNetwork, hc, h4]
      · intro e2 had
        have had' : ad = Except.error e2 := had
        subst had'
        simp [ensureNetwork, hc, h4]
    · intro e hsw h4
      have hsw' : sw = Except.error e := hsw
      subst hsw'
      constructor <;> simp [ensureNetwork, hc, h4, h90]

/-- Witness for C5: on a wallet already reporting chain `0x90f7`, no
switch or add request is issued. -/
theorem C5_witness :
    (ensureNetwork demoNetOk []).2.1 = [Event.reqChainId] ∧
    (ensureNetwork demoNetOk []).2.2 = Except.ok () :=
  (C5_ensure_network demoNetOk []).1 (by decide)

/-- C2 counterexample: when the wallet rejects the signature request,
the invocation of `sendGaslessTransaction` sends zero (not exactly one)
`eth_sendRawTransaction` requests, and it throws even though no parsed
RPC response with an `error` field is involved. -/
theorem C2_counterexample :
    countRpcSends (sendGaslessTransaction sigRejectEnv demoAddr
      STAKE_MANAGER_ADDRESS (CallData.stakePost "0xt" "0xg" "0xb" 0)
      PAYMASTER_ADDRESS PAYMASTER_INPUT []).2.1 = 0 ∧
    countRpcSends (sendGaslessTransaction sigRejectEnv demoAddr
      STAKE_MANAGER_ADDRESS (CallData.stakePost "0xt" "0xg" "0xb" 0)
      PAYMASTER_ADDRESS PAYMASTER_INPUT []).2.1 ≠ 1 ∧
    (sendGaslessTransaction sigRejectEnv demoAddr STAKE_MANAGER_ADDRESS
      (CallData.stakePost "0xt" "0xg" "0xb" 0) PAYMASTER_ADDRESS
      PAYMASTER_INPUT []).2.2 =
      Except.error
        { message := "User rejected the request", code := none,
          shortMessage := none } :=
  ⟨rfl, by decide, rfl⟩

/-- C2 amended: an invocation of `sendGaslessTransaction` sends at most
one `eth_sendRawTransaction` request, with no retry or resubmission;
when the nonce read, the gas-price read and the signature request all
succeed it sends exactly one, and then — once the response is parsed —
it throws iff the response contains an `error` member (the thrown
message being the error's message when truthy, otherwise the error's
JSON serialization), and otherwise returns the response's `result`
field as the transaction hash. -/
theorem C2_amended_single_send (env : GaslessEnv) (account t_addr : Address)
    (d : CallData) (pm : Address) (pmInput : Hex) (logs : List String) :
    countRpcSends
      (sendGaslessTransaction env account t_addr d pm pmInput logs).2.1 ≤ 1 ∧
    (∀ nonce gasPrice sig,
      env.nonceResult = Except.ok nonce →
      env.gasPriceResult = Except.ok gasPrice →
      env.signatureResult = Except.ok sig →
      countRpcSends
        (sendGaslessTransaction env account t_addr d pm pmInput logs).2.1 = 1 ∧
      ∀ resp, env.rpcResult = Except.ok resp →
        (∀ re, resp.error = some re →
          (sendGaslessTransaction env account t_addr d pm pmInput logs).2.2 =
            Except.error
              { message := rpcThrownMessage re, code := none,
                shortMessage := none }) ∧
        (resp.error = none →
          (sendGaslessTransaction env account t_addr d pm pmInput logs).2.2 =
            Except.ok resp.result)) := by
  obtain ⟨n, g, s, ser, r⟩ := env
  cases n with
  | error e =>
    refine ⟨by simp [sendGaslessTransaction, countRpcSends, Event.isRpcSend], ?_⟩
    intro nonce gasPrice sig hn hg hs
    exact absurd hn (by simp)
  | ok nonce' =>
    cases g with
    | error e =>
      refine ⟨by simp [sendGaslessTransaction, countRpcSends, Event.isRpcSend], ?_⟩
      intro nonce gasPrice sig hn hg hs
      exact absurd hg (by simp)
    | ok gasPrice' =>
      cases s with
      | error e =>
        refine ⟨by simp [sendGaslessTransaction, countRpcSends, Event.isRpcSend], ?_⟩
        intro nonce gasPrice sig hn hg hs
        exact absurd hs (by simp)
      | ok sig' =>
        cases r with
        | error e =>
          refine ⟨by simp [sendGaslessTransaction, countRpcSends, Event.isRpcSend], ?_⟩
          intro nonce gasPrice sig hn hg hs
          refine ⟨by simp [sendGaslessTransaction, countRpcSends, Event.isRpcSend], ?_⟩
          intro resp hr
          exact absurd hr (by simp)
        | ok resp =>
          obtain ⟨rerr, rres⟩ := resp
          cases rerr with
          | none =>
            refine ⟨by simp [sendGaslessTransaction, countRpcSends, Event.isRpcSend], ?_⟩
            intro nonce gasPrice sig hn hg hs
            refine ⟨by simp [sendGaslessTransaction, countRpcSends, Event.isRpcSend], ?_⟩
            intro resp hr
            have hr' : resp = ({ error := none, result := rres } : RpcResponse) := by
              injection hr with hr
              exact hr.symm
            subst hr'
            exact ⟨fun re hre => by simp at hre, fun _ => rfl⟩
          | some re' =>
            refine ⟨by simp [sendGaslessTransaction, countRpcSends, Event.isRpcSend], ?_⟩
            intro nonce gasPrice sig hn hg hs
            refine ⟨by simp [sendGaslessTransaction, countRpcSends, Event.isRpcSend], ?_⟩
            intro resp hr
            have hr' : resp = ({ error := some re', result := rres } : RpcResponse) := by
              injection hr with hr
              exact hr.symm
            subst hr'
            refine ⟨fun re hre => ?_, fun hre => by simp at hre⟩
            have hre' : re = re' := by
              injection hre with hre
              exact hre.symm
            subst hre'
            rfl

/-- Witness for C2's amended statement at the concrete successful
environment: exactly one POST, returning the response's result. -/
theorem C2_witness :
    countRpcSends (sendGaslessTransaction demoGasless demoAddr
      STAKE_MANAGER_ADDRESS (CallData.stakePost "0xt" "0xg" "0xb" 0)
      PAYMASTER_ADDRESS PAYMASTER_INPUT []).2.1 = 1 ∧
    (sendGaslessTransaction demoGasless demoAddr STAKE_MANAGER_ADDRESS
      (CallData.stakePost "0xt" "0xg" "0xb" 0) PAYMASTER_ADDRESS
      PAYMASTER_INPUT []).2.2 = Except.ok "0xhash" := by
  have h := (C2_amended_single_send demoGasless demoAddr STAKE_MANAGER_ADDRESS
    (CallData.stakePost "0xt" "0xg" "0xb" 0) PAYMASTER_ADDRESS
    PAYMASTER_INPUT []).2 7 5 "0xsigdemo" rfl rfl rfl
  exact ⟨h.1, (h.2 { error := none, result := "0xhash" } rfl).2 rfl⟩

/-- C8: in the manual variant the EIP-712 message passed to
`signTypedData` and the request passed to `serializeTransaction` agree
on every shared field (addresses compared through `addressToBigInt`),
with gas limit 500000, gasPerPubdata 800, value 0 and empty
`factoryDeps`, and the message's `txType` `0x71` corresponds to the
serialized `type` `eip712`. -/
theorem C8_message_request_agree (env : GaslessEnv) (account t_addr : Address)
    (d : CallData) (pm : Address) (pmInput : Hex) (logs : List String)
    (dom : Eip712Domain) (msg : Eip712Message) (m : String)
    (tx : ZkSyncTxRequest)
    (hsign : Event.signTypedData dom msg ∈
      (sendGaslessTransaction env account t_addr d pm pmInput logs).2.1)
    (hsend : Event.rpcSend m tx ∈
      (sendGaslessTransaction env account t_addr d pm pmInput logs).2.1) :
    msg.from_ = addressToBigInt tx.from_ ∧
    msg.to_ = addressToBigInt tx.to_ ∧
    msg.nonce = tx.nonce ∧
    msg.gasLimit = 500000 ∧ tx.gas = 500000 ∧
    msg.gasPerPubdataByteLimit = 800 ∧ tx.gasPerPubdata = 800 ∧
    msg.maxFeePerGas = tx.maxFeePerGas ∧
    msg.maxPriorityFeePerGas = tx.maxPriorityFeePerGas ∧
    msg.paymaster = addressToBigInt tx.paymaster ∧
    msg.paymasterInput = tx.paymasterInput ∧
    msg.data = tx.data ∧
    msg.value = 0 ∧ tx.value = 0 ∧
    msg.factoryDeps = [] ∧ tx.factoryDeps = [] ∧
    msg.txType = 0x71 ∧ tx.type = "eip712" := by
  obtain ⟨hdom, n1, g1, hn1, hg1, hmsg⟩ :=
    sendGasless_sign_char env account t_addr d pm pmInput logs dom msg hsign
  obtain ⟨hm, n2, g2, sig, hn2, hg2, hs2, htx⟩ :=
    sendGasless_rpcSend_char env account t_addr d pm pmInput logs m tx hsend
  rw [hn1] at hn2
  injection hn2 with hn
  subst hn
  rw [hg1] at hg2
  injection hg2 with hg
  subst hg
  subst hmsg
  subst htx
  exact ⟨rfl, rfl, rfl, rfl, rfl, rfl, rfl, rfl, rfl, rfl, rfl, rfl, rfl,
    rfl, rfl, rfl, rfl, rfl⟩

/-- The EIP-712 message `demoGasless` leads the manual variant to sign. -/
def demoMsg : Eip712Message :=
  builtMessage demoAddr STAKE_MANAGER_ADDRESS
    (CallData.stakePost "0xt" "0xg" "0xb" 0) PAYMASTER_ADDRESS PAYMASTER_INPUT
    7 5

set_option maxRecDepth 8192 in
/-- Witness for C8 at the concrete successful environment. -/
theorem C8_witness :
    demoMsg.from_ = addressToBigInt demoTx.from_ ∧
    demoMsg.to_ = addressToBigInt demoTx.to_ ∧
    demoMsg.nonce = demoTx.nonce ∧
    demoMsg.gasLimit = 500000 ∧ demoTx.gas = 500000 ∧
    demoMsg.gasPerPubdataByteLimit = 800 ∧ demoTx.gasPerPubdata = 800 ∧
    demoMsg.maxFeePerGas = demoTx.maxFeePerGas ∧
    demoMsg.maxPriorityFeePerGas = demoTx.maxPriorityFeePerGas ∧
    demoMsg.paymaster = addressToBigInt demoTx.paymaster ∧
    demoMsg.paymasterInput = demoTx.paymasterInput ∧
    demoMsg.data = demoTx.data ∧
    demoMsg.value = 0 ∧ demoTx.value = 0 ∧
    demoMsg.factoryDeps = [] ∧ demoTx.factoryDeps = [] ∧
    demoMsg.txType = 0x71 ∧ demoTx.type = "eip712" :=
  C8_message_request_agree demoGasless demoAddr STAKE_MANAGER_ADDRESS
    (CallData.stakePost "0xt" "0xg" "0xb" 0) PAYMASTER_ADDRESS PAYMASTER_INPUT
    [] (getEip712Domain CHAIN_ID) demoMsg "eth_sendRawTransaction" demoTx
    (by decide) (by decide)

/-- String append is associative (via the character data). -/
theorem string_append_assoc : ∀ a b c : String, (a ++ b) ++ c = a ++ (b ++ c)
  | ⟨a⟩, ⟨b⟩, ⟨c⟩ => congrArg String.mk (List.append_assoc a b c)

/-- A log ending with an error line has the error line last. -/
theorem endsWithErrorLine_getLast (l : List String)
    (h : endsWithErrorLine l) :
    ∃ m, l.getLast? = some ("> " ++ ("ERROR: " ++ m)) := by
  obtain ⟨pre, m, rfl⟩ := h
  exact ⟨m, by simp [addLog]⟩

/-- A log ending with the success lines has the explorer line last. -/
theorem endsWithSuccess_getLast (l : List String)
    (h : endsWithSuccess l) :
    ∃ hash, l.getLast? =
      some ("> " ++ ("https://block-explorer.testnet.lens.dev/tx/" ++ hash)) := by
  obtain ⟨pre, hash, rfl⟩ := h
  exact ⟨hash, by simp [addLog]⟩

/-- An error carrying a `shortMessage`, as viem errors do. -/
def shortErr : JsError :=
  { message := "boom", code := none, shortMessage := some "short msg" }

/-- A library-variant environment whose `sendTransaction` rejects with
`shortErr`. -/
def cexLibEnv : LibEnv := { net := demoNetOk, sendResult := Except.error shortErr }

/-- C3 counterexample: when the library gasless handler catches an error
carrying a `shortMessage`, the final log line is the `Short: …` line, so
the completed invocation leaves the log ending neither with the success
lines nor with an `ERROR: …` line. -/
theorem C3_counterexample :
    (Lib.postGasless (some demoAddr) cexLibEnv []).1.getLast? =
      some "> Short: short msg" ∧
    ¬ (endsWithSuccess (Lib.postGasless (some demoAddr) cexLibEnv []).1 ∨
       endsWithErrorLine (Lib.postGasless (some demoAddr) cexLibEnv []).1) := by
  have hlast : (Lib.postGasless (some demoAddr) cexLibEnv []).1.getLast? =
      some "> Short: short msg" := by decide
  refine ⟨hlast, ?_⟩
  rintro (hS | hE)
  · obtain ⟨hash, hh⟩ := endsWithSuccess_getLast _ hS
    rw [hlast] at hh
    injection hh with hh
    rw [← string_append_assoc] at hh
    exact string_append_ne _ _ (by decide) hash hh
  · obtain ⟨m, hh⟩ := endsWithErrorLine_getLast _ hE
    rw [hlast] at hh
    injection hh with hh
    rw [← string_append_assoc] at hh
    exact string_append_ne _ _ (by decide) m hh

/-- C3 amended: every completed invocation of a handler with a connected
address leaves the log ending either with the success lines (the
`=== SUCCESS ===` marker, the transaction hash and the explorer link) or
with an `ERROR: …` line, which in the library gasless handler may be
followed by one `Short: …` line when the caught error carries a
`shortMessage`; the handlers never propagate the exception (they are
total functions into log and trace). -/
theorem C3_amended_log_endings (a : Address) (envP : PageEnv) (envL : LibEnv)
    (logs : List String) :
    (endsWithSuccess (Manual.postGasless (some a) envP logs).1 ∨
     endsWithErrorLine (Manual.postGasless (some a) envP logs).1) ∧
    (endsWithSuccess (Lib.postGasless (some a) envL logs).1 ∨
     endsWithErrorLine (Lib.postGasless (some a) envL logs).1 ∨
     endsWithErrorShort (Lib.postGasless (some a) envL logs).1) ∧
    (endsWithSuccess (Lib.postSelfFunded (some a) envL logs).1 ∨
     endsWithErrorLine (Lib.postSelfFunded (some a) envL logs).1) := by
  refine ⟨?_, ?_, ?_⟩
  · simp only [Manual.postGasless]
    split
    · exact Or.inr ⟨_, _, rfl⟩
    · split
      · exact Or.inr ⟨_, _, rfl⟩
      · exact Or.inl ⟨_, _, rfl⟩
  · simp only [Lib.postGasless]
    split
    · simp only [Lib.logCaughtError]
      split
      · exact Or.inr (Or.inr ⟨_, _, _, rfl⟩)
      · exact Or.inr (Or.inl ⟨_, _, rfl⟩)
    · split
      · simp only [Lib.logCaughtError]
        split
        · exact Or.inr (Or.inr ⟨_, _, _, rfl⟩)
        · exact Or.inr (Or.inl ⟨_, _, rfl⟩)
      · exact Or.inl ⟨_, _, rfl⟩
  · simp only [Lib.postSelfFunded]
    split
    · exact Or.inr ⟨_, _, rfl⟩
    · split
      · exact Or.inr ⟨_, _, rfl⟩
      · exact Or.inl ⟨_, _, rfl⟩

/-- `submissions` distributes over trace concatenation. -/
theorem submissions_append (t1 t2 : List Event) :
    submissions (t1 ++ t2) = submissions t1 ++ submissions t2 :=
  List.filterMap_append t1 t2 submittedTo

/-- `ensureNetwork` issues no transaction submission. -/
theorem ensureNetwork_submissions (env : NetEnv) (logs : List String) :
    submissions (ensureNetwork env logs).2.1 = [] := by
  have h := ensureNetwork_events env logs
  rcases hN : ensureNetwork env logs with ⟨l1, t1, r1⟩
  rw [hN] at h
  simp only [submissions, List.filterMap_eq_nil_iff]
  intro e he
  rcases h e he with h' | ⟨s, h'⟩ | ⟨q, h'⟩ <;> subst h' <;> rfl

/-- Prepending a network trace does not change the submissions. -/
theorem submissions_net_append (env : NetEnv) (lg : List String)
    (tr : List Event) :
    submissions ((ensureNetwork env lg).2.1 ++ tr) = submissions tr := by
  rw [submissions_append, ensureNetwork_submissions, List.nil_append]

/-- `sendGaslessTransaction` submits to its `to` argument, or to nobody
when an earlier step fails. -/
theorem sendGasless_submissions (env : GaslessEnv) (account t_addr : Address)
    (d : CallData) (pm : Address) (pmInput : Hex) (logs : List String) :
    submissions
      (sendGaslessTransaction env account t_addr d pm pmInput logs).2.1 = [] ∨
    submissions
      (sendGaslessTransaction env account t_addr d pm pmInput logs).2.1 =
      [t_addr] := by
  obtain ⟨n, g, s, ser, r⟩ := env
  cases n with
  | error e => exact Or.inl rfl
  | ok nonce =>
    cases g with
    | error e => exact Or.inl rfl
    | ok gasPrice =>
      cases s with
      | error e => exact Or.inl rfl
      | ok sig =>
        cases r with
        | error e => exact Or.inr rfl
        | ok resp =>
          obtain ⟨rerr, rres⟩ := resp
          cases rerr with
          | none => exact Or.inr rfl
          | some re => exact Or.inr rfl

/-- The manual `postGasless` submits to the stake manager, or to nobody
when a step fails. -/
theorem manual_postGasless_submissions (a : Address) (envP : PageEnv)
    (logs : List String) :
    submissions (Manual.postGasless (some a) envP logs).2 = [] ∨
    submissions (Manual.postGasless (some a) envP logs).2 =
      [STAKE_MANAGER_ADDRESS] := by
  simp only [Manual.postGasless]
  split
  · exact Or.inl (ensureNetwork_submissions _ _)
  · split <;> rw [submissions_net_append] <;>
      exact sendGasless_submissions _ _ _ _ _ _ _

/-- The library `postGasless` submits to the connected address, or to
nobody when a step fails. -/
theorem lib_postGasless_submissions (a : Address) (envL : LibEnv)
    (logs : List String) :
    submissions (Lib.postGasless (some a) envL logs).2 = [] ∨
    submissions (Lib.postGasless (some a) envL logs).2 = [a] := by
  simp only [Lib.postGasless]
  split
  · exact Or.inl (ensureNetwork_submissions _ _)
  · split <;> rw [submissions_net_append] <;> exact Or.inr rfl

/-- The library `postSelfFunded` submits to the connected address, or to
nobody when a step fails. -/
theorem lib_postSelfFunded_submissions (a : Address) (envL : LibEnv)
    (logs : List String) :
    submissions (Lib.postSelfFunded (some a) envL logs).2 = [] ∨
    submissions (Lib.postSelfFunded (some a) envL logs).2 = [a] := by
  simp only [Lib.postSelfFunded]
  split
  · exact Or.inl (ensureNetwork_submissions _ _)
  · split <;> rw [submissions_net_append] <;> exact Or.inr rfl

/-- Any `sendTransaction` request of the library `postGasless` carries
exactly the record the source passes: recipient the connected address,
value 0, no data, the paymaster address and the general paymaster
input. -/
theorem lib_postGasless_send_char (a : Address) (envL : LibEnv)
    (logs : List String) (p : SendTxParams)
    (h : Event.libSendTransaction p ∈ (Lib.postGasless (some a) envL logs).2) :
    p = { to_ := a, value := 0, data := none,
          paymaster := some PAYMASTER_ADDRESS,
          paymasterInput := some (getGeneralPaymasterInput "0x") } := by
  simp only [Lib.postGasless] at h
  split at h
  · rcases ensureNetwork_events _ _ _ h with h' | ⟨s, h'⟩ | ⟨q, h'⟩ <;> simp at h'
  · split at h <;>
    · rcases List.mem_append.mp h with hL | hR
      · rcases ensureNetwork_events _ _ _ hL with h' | ⟨s, h'⟩ | ⟨q, h'⟩ <;>
          simp at h'
      · simpa using hR

/-- Any `sendTransaction` request of the library `postSelfFunded`
carries the record the source passes: recipient the connected address,
value 0, no data and no paymaster fields. -/
theorem lib_postSelfFunded_send_char (a : Address) (envL : LibEnv)
    (logs : List String) (p : SendTxParams)
    (h : Event.libSendTransaction p ∈
      (Lib.postSelfFunded (some a) envL logs).2) :
    p = { to_ := a, value := 0, data := none, paymaster := none,
          paymasterInput := none } := by
  simp only [Lib.postSelfFunded] at h
  split at h
  · rcases ensureNetwork_events _ _ _ h with h' | ⟨s, h'⟩ | ⟨q, h'⟩ <;> simp at h'
  · split at h <;>
    · rcases List.mem_append.mp h with hL | hR
      · rcases ensureNetwork_events _ _ _ hL with h' | ⟨s, h'⟩ | ⟨q, h'⟩ <;>
          simp at h'
      · simpa using hR

/-- A successful library-variant environment. -/
def demoLibEnv : LibEnv := { net := demoNetOk, sendResult := Except.ok "0xhash" }

set_option maxRecDepth 8192 in
/-- C7 counterexample: on the same connected address and fully
successful environments, the manual variant submits to the stake-manager
contract while the library gasless variant submits to the connected
address itself — the recipient (and with it the calldata) of the
submitted transaction is not the same across variants. -/
theorem C7_counterexample :
    submissions (Manual.postGasless (some demoAddr) demoPage []).2 =
      [STAKE_MANAGER_ADDRESS] ∧
    submissions (Lib.postGasless (some demoAddr) demoLibEnv []).2 =
      [demoAddr] ∧
    STAKE_MANAGER_ADDRESS ≠ demoAddr := by
  refine ⟨by decide, by decide, by decide⟩

/-- C7 amended: the variants share the flow — the same network logic,
at most one submission per invocation, zero value — and differ in
assembly and paymaster use, but also in the submitted transaction's
recipient and calldata: the manual variant submits a `stakePost` call to
the stake manager, while the library variants send a data-less
transaction to the connected address itself. -/
theorem C7_amended_variant_differences (a : Address) (envP : PageEnv)
    (envL : LibEnv) (logs : List String) :
    (submissions (Manual.postGasless (some a) envP logs).2 = [] ∨
     submissions (Manual.postGasless (some a) envP logs).2 =
       [STAKE_MANAGER_ADDRESS]) ∧
    (submissions (Lib.postGasless (some a) envL logs).2 = [] ∨
     submissions (Lib.postGasless (some a) envL logs).2 = [a]) ∧
    (submissions (Lib.postSelfFunded (some a) envL logs).2 = [] ∨
     submissions (Lib.postSelfFunded (some a) envL logs).2 = [a]) ∧
    (∀ m tx, Event.rpcSend m tx ∈ (Manual.postGasless (some a) envP logs).2 →
      tx.to_ = STAKE_MANAGER_ADDRESS ∧ tx.value = 0 ∧ tx.chainId = CHAIN_ID ∧
      tx.data = CallData.stakePost envP.targetId envP.groveHash envP.boardId 0 ∧
      tx.paymaster = PAYMASTER_ADDRESS ∧
      tx.paymasterInput = PAYMASTER_INPUT) ∧
    (∀ p, Event.libSendTransaction p ∈ (Lib.postGasless (some a) envL logs).2 →
      p = { to_ := a, value := 0, data := none,
            paymaster := some PAYMASTER_ADDRESS,
            paymasterInput := some (getGeneralPaymasterInput "0x") }) ∧
    (∀ p, Event.libSendTransaction p ∈
        (Lib.postSelfFunded (some a) envL logs).2 →
      p = { to_ := a, value := 0, data := none, paymaster := none,
            paymasterInput := none }) := by
  refine ⟨manual_postGasless_submissions a envP logs,
    lib_postGasless_submissions a envL logs,
    lib_postSelfFunded_submissions a envL logs, ?_, ?_, ?_⟩
  · intro m tx h
    obtain ⟨-, -, h2, -, h4, -, -, h7, h8, h9, h10, -⟩ :=
      manual_postGasless_rpcSend_char a envP logs m tx h
    exact ⟨h4, h10, h2, h9, h7, h8⟩
  · exact fun p h => lib_postGasless_send_char a envL logs p h
  · exact fun p h => lib_postSelfFunded_send_char a envL logs p h

set_option maxRecDepth 8192 in
/-- Witness for C7's amended statement: the manual variant's concrete
submission goes to the stake manager with the `stakePost` calldata. -/
theorem C7_witness :
    demoTx.to_ = STAKE_MANAGER_ADDRESS ∧ demoTx.value = 0 ∧
    demoTx.chainId = CHAIN_ID ∧
    demoTx.data = CallData.stakePost "0xt" "0xg" "0xb" 0 ∧
    demoTx.paymaster = PAYMASTER_ADDRESS ∧
    demoTx.paymasterInput = PAYMASTER_INPUT :=
  (C7_amended_variant_differences demoAddr demoPage demoLibEnv []).2.2.2.1
    "eth_sendRawTransaction" demoTx (by decide)

/-- C10: with no connected address, each handler returns immediately:
the log is unchanged (in particular not cleared) and no wallet or
network request is issued. -/
theorem C10_null_address_no_effect (envP : PageEnv) (envL : LibEnv)
    (logs : List String) :
    Manual.postGasless none envP logs = (logs, []) ∧
    Lib.postGasless none envL logs = (logs, []) ∧
    Lib.postSelfFunded none envL logs = (logs, []) :=
  ⟨rfl, rfl, rfl⟩

end Mini2
